import Mathlib

/-!
Verification development for the `stats.py` statistics module of the
ptm-reuse-through-academic-transactions repository.

The Python module computes overlap statistics between two SQLite datasets
(an OpenAlex citation corpus and a PeaTMOSS curated corpus) using scalar SQL
queries and chunked pandas scans.  Below is a shallow embedding of the pure
data-processing core of that module: table columns become `List (Option String)`
(with `none` for SQL NULL / pandas null values), streamed chunk sequences
become lists of chunks, and Python runtime failures (KeyError, AttributeError,
TypeError, ZeroDivisionError) become an explicit error type threaded through
`Except`.
-/

/-- Runtime failures of the Python code, plus the one structured error name
    (`queryError`) that the specification's error taxonomy postulates.
    `schemaError` stands for the pandas `KeyError` raised when a DataFrame
    column subscript misses (the spec calls this `SchemaError`);
    `attributeError` for `AttributeError: 'NoneType' object has no attribute
    'strip'` (or `'replace'`) raised by `Series.apply` on a null value;
    `typeError` for `TypeError: 'NoneType' object is not subscriptable`
    raised by `fetchone()[0]` on a zero-row result;
    `divisionError` for `ZeroDivisionError`.  The code never raises
    `queryError`; the constructor exists so statements can compare the code's
    actual error against the spec's postulated one. -/
inductive PyError where
  | schemaError
  | attributeError
  | typeError
  | queryError
  | divisionError
deriving DecidableEq

/-- Python `str.strip()` (restricted to ASCII whitespace): drop leading and
    trailing whitespace characters. -/
def pyStrip (s : List Char) : List Char :=
  ((s.dropWhile Char.isWhitespace).reverse.dropWhile Char.isWhitespace).reverse

/-- Python `str.lower()` (restricted to ASCII letters): lowercase every
    character. -/
def pyLower (s : List Char) : List Char :=
  s.map Char.toLower

/-- Embedding of `_standardizeText` (stats.py lines 111-120):
    `text.strip().lower()`. -/
def _standardizeText (text : String) : String :=
  ⟨pyLower (pyStrip text.data)⟩

/-- Fuel-indexed worker for Python `str.replace`: replace the leftmost
    occurrence of `pat`, continue after the replaced segment, never rescan
    the replacement text.  The fuel only serves structural recursion; with
    `fuel = s.length` and a non-empty `pat` the zero-fuel arm is unreachable. -/
def replaceAllAux (pat repl : List Char) : Nat → List Char → List Char
  | _, [] => []
  | 0, s => s
  | fuel + 1, c :: rest =>
    if pat.isPrefixOf (c :: rest) then
      repl ++ replaceAllAux pat repl fuel ((c :: rest).drop pat.length)
    else
      c :: replaceAllAux pat repl fuel rest

/-- Python `str.replace(pat, repl)` for a non-empty pattern: replace every
    non-overlapping occurrence of `pat` in `s` by `repl`, left to right. -/
def replaceAll (pat repl s : List Char) : List Char :=
  replaceAllAux pat repl s.length s

/-- Embedding of `_convertToArXivDOI` (stats.py lines 96-108):
    `arxivURL.replace("https://arxiv.org/abs/", "10.48550/arxiv.")`.
    Note that Python `str.replace` rewrites every occurrence of the pattern
    anywhere in the string, not only a leading one. -/
def _convertToArXivDOI (arxivURL : String) : String :=
  ⟨replaceAll "https://arxiv.org/abs/".data "10.48550/arxiv.".data arxivURL.data⟩

/-- Literal (non-regex) substring test: does `pat` occur contiguously in `s`? -/
def containsSub (pat : List Char) : List Char → Bool
  | [] => pat.isEmpty
  | c :: rest => pat.isPrefixOf (c :: rest) || containsSub pat rest

/-- One regex pattern character against one subject character, for the fixed
    pattern used by the code: in `pandas.Series.str.contains` the pattern is a
    regular expression by default, so `'.'` matches any character except a
    newline, and every other character of this pattern matches literally. -/
def patCharMatches (p c : Char) : Bool :=
  if p = '.' then c != '\n' else p == c

/-- Does the regex pattern match at the head of the subject? -/
def patMatchesHere : List Char → List Char → Bool
  | [], _ => true
  | _ :: _, [] => false
  | p :: ps, c :: cs => patCharMatches p c && patMatchesHere ps cs

/-- `re.search` over the fixed pattern: does the pattern match at some
    position of the subject?  This is the semantics of
    `Series.str.contains(pat)` with its default `regex=True`. -/
def patSearch (pat : List Char) : List Char → Bool
  | [] => patMatchesHere pat []
  | c :: rest => patMatchesHere pat (c :: rest) || patSearch pat rest

/-- The pattern string `"10.48550/arxiv."` passed to `str.contains` in
    `pm_IdentifyPapersPublishedInArXiv` (stats.py line 287). -/
def arxivPat : List Char :=
  "10.48550/arxiv.".data

/-- Embedding of `pandas.Series.apply(f)` for a string-consuming `f` over a
    column that may hold nulls: applying a function that calls a `str` method
    on a null value raises `AttributeError` ('NoneType' object has no
    attribute ...), at the first null in the column. -/
def applySeries (f : String → String) : List (Option String) → Except PyError (List String)
  | [] => .ok []
  | none :: _ => .error .attributeError
  | some s :: rest =>
    match applySeries f rest with
    | .ok l => .ok (f s :: l)
    | .error e => .error e

/-- A pandas DataFrame chunk, restricted to what the matcher touches: named
    columns of possibly-null string cells. -/
structure DataFrame where
  columns : List (String × List (Option String))

/-- Embedding of `df[name]` column subscription: a missing column raises
    `KeyError`, which the specification's taxonomy calls `SchemaError`. -/
def DataFrame.getCol (df : DataFrame) (name : String) : Except PyError (List (Option String)) :=
  match df.columns.lookup name with
  | some col => .ok col
  | none => .error .schemaError

/-- Per-chunk body of the matcher loop in `oapm_CountPMArXivPapersInOA`
    (stats.py lines 326-330): fetch the `doi` column, standardize it with
    `Series.apply(_standardizeText)`, and count the rows whose standardized
    key is a member (`isin`) of the reference values. -/
def processChunk (refs : List String) (df : DataFrame) : Except PyError Nat :=
  match df.getCol "doi" with
  | .error e => .error e
  | .ok col =>
    match applySeries _standardizeText col with
    | .error e => .error e
    | .ok std => .ok (std.countP (fun k => refs.contains k))

/-- The matcher loop of `oapm_CountPMArXivPapersInOA` (stats.py lines
    323-332): process the streamed chunks strictly in order, accumulating
    `count += matches`; the first failing chunk aborts the whole loop. -/
def oapm_matchChunks (refs : List String) : List DataFrame → Except PyError Nat
  | [] => .ok 0
  | df :: rest =>
    match processChunk refs df with
    | .error e => .error e
    | .ok c =>
      match oapm_matchChunks refs rest with
      | .error e => .error e
      | .ok n => .ok (c + n)

/-- A one-column chunk holding the `doi` key column, as produced by streaming
    `SELECT DISTINCT doi FROM works`. -/
def mkChunk (col : List (Option String)) : DataFrame :=
  ⟨[("doi", col)]⟩

/-- Fuel-indexed worker for chunking a row list into batches of `n` rows. -/
def chunkListAux (n : Nat) : Nat → List (Option String) → List (List (Option String))
  | _, [] => []
  | 0, l => [l]
  | fuel + 1, l => l.take n :: chunkListAux n fuel (l.drop n)

/-- Embedding of `_createDFGeneratorFromSQL` chunking (stats.py lines 46-65,
    via `pandas.read_sql_query(..., chunksize=n)`): split the query's row
    sequence, in scan order, into batches of at most `n` rows; an empty
    result yields no chunks.  `n = 0` never occurs in the code (the chunk
    size is always 10000); the guard keeps the definition total. -/
def chunkList (n : Nat) (l : List (Option String)) : List (List (Option String)) :=
  if n = 0 then [l] else chunkListAux n l.length l

/-- Modelled from the spec: the precomputed literal `OA_DOI_COUNT` imported
    from the `src.stats` package `__init__` module, which is not present in
    the repository snapshot.  Per the spec it is a cached constant; its value
    is immaterial to every statement below, which only use that it is fixed. -/
def OA_DOI_COUNT : Nat := 0

/-- Modelled from the spec: the precomputed literal `OA_OAID_COUNT` from the
    missing `src.stats` package `__init__` module (a fixed cached constant). -/
def OA_OAID_COUNT : Nat := 0

/-- Modelled from the spec: the precomputed literal `OA_CITATION_COUNT` from
    the missing `src.stats` package `__init__` module (a fixed cached
    constant). -/
def OA_CITATION_COUNT : Nat := 0

/-- Modelled from the spec: the precomputed literal
    `OAPM_ARXIV_PM_PAPERS_IN_OA` from the missing `src.stats` package
    `__init__` module (a fixed cached constant). -/
def OAPM_ARXIV_PM_PAPERS_IN_OA : Nat := 0

/-- Per-chunk body of the loop in `oa_CountPapersByDOI` (stats.py lines
    162-166): `df["doi"] = df["doi"].replace(to_replace=" ", value=None)`
    turns cells whose value is exactly the one-space string into nulls
    (pandas `replace` matches whole cell values, not substrings), then
    `df.dropna(inplace=True)` drops null rows and `df.shape[0]` counts the
    rows that remain. -/
def doiChunkCount (chunk : List (Option String)) : Nat :=
  ((chunk.map (fun v =>
    match v with
    | some s => if s = " " then none else some s
    | none => none)).filterMap id).length

/-- Embedding of `oa_CountPapersByDOI` (stats.py lines 135-168).  The `works`
    table is represented by its `doi` column; `SELECT DISTINCT doi FROM works`
    is its deduplication, streamed in chunks of 10000 rows. -/
def oa_CountPapersByDOI (works_doi : List (Option String)) (returnDefault : Bool) : Nat :=
  if returnDefault then OA_DOI_COUNT
  else ((chunkList 10000 works_doi.dedup).map doiChunkCount).sum

/-- Embedding of `cursor.fetchone()` on a query's result rows
    (`_runOneValueSQLQuery`, stats.py lines 31-43): the first row if any,
    otherwise `None`. -/
def _runOneValueSQLQuery (rows : List α) : Option α :=
  rows.head?

/-- Embedding of the `[0]` subscription the callers apply to
    `_runOneValueSQLQuery`'s result: subscripting `None` raises
    `TypeError: 'NoneType' object is not subscriptable`. -/
def subscript0 : Option α → Except PyError α
  | some v => .ok v
  | none => .error .typeError

/-- Embedding of `oa_CountPapersByOAID` (stats.py lines 171-189).  The query
    `SELECT COUNT(DISTINCT oa_id) FROM works` always returns exactly one row
    holding the number of distinct non-NULL `oa_id` values. -/
def oa_CountPapersByOAID (works_oaid : List (Option String)) (returnDefault : Bool) : Except PyError Nat :=
  if returnDefault then .ok OA_OAID_COUNT
  else subscript0 (_runOneValueSQLQuery [(works_oaid.filterMap id).dedup.length])

/-- The maximum of a list of ids, `none` on the empty list. -/
def listMaxId : List Nat → Option Nat
  | [] => none
  | i :: rest =>
    match listMaxId rest with
    | none => some i
    | some m => some (max i m)

/-- Result rows of `SELECT id FROM cites ORDER BY id DESC LIMIT 1`
    (stats.py line 220): the single row holding the largest id, or no rows
    when the table is empty. -/
def sqlTopIdDesc (ids : List Nat) : List Nat :=
  match listMaxId ids with
  | some m => [m]
  | none => []

/-- Embedding of `oa_CountCitations` (stats.py lines 206-224).  The `cites`
    table is represented by its `id` column.  Note the computed branch
    returns the largest `id`, not the number of rows. -/
def oa_CountCitations (cites_ids : List Nat) (returnDefault : Bool) : Except PyError Nat :=
  if returnDefault then .ok OA_CITATION_COUNT
  else subscript0 (_runOneValueSQLQuery (sqlTopIdDesc cites_ids))

/-- Embedding of Python's `/` on two integer counts, with the float quotient
    modelled as the exact rational: `ZeroDivisionError` on a zero
    denominator. -/
def pyDiv (num den : Nat) : Except PyError Rat :=
  if den = 0 then .error .divisionError
  else .ok ((num : Rat) / (den : Rat))

/-- Embedding of `oa_ProportionOfValidPapers` (stats.py lines 192-203):
    `oaDOICount / oaIDCount`. -/
def oa_ProportionOfValidPapers (oaIDCount oaDOICount : Nat) : Except PyError Rat :=
  pyDiv oaDOICount oaIDCount

/-- Embedding of `oapm_ProportionOfPMPapersInOA` (stats.py lines 227-241):
    `pmPapers / oaPapers`. -/
def oapm_ProportionOfPMPapersInOA (oaPapers pmPapers : Nat) : Except PyError Rat :=
  pyDiv pmPapers oaPapers

/-- A row of the PeaTMOSS `paper` table as fetched by
    `SELECT title, url FROM paper`: both fields may be NULL. -/
structure PaperRow where
  title : Option String
  url : Option String

/-- Embedding of `pm_IdentifyPapersPublishedInArXiv` (stats.py lines
    273-287): derive the DOI of every `url` cell with
    `Series.apply(_convertToArXivDOI)` (failing on nulls), then keep the rows
    whose derived url matches `str.contains("10.48550/arxiv.")` — a regex
    test, since `contains` defaults to `regex=True`. -/
def pm_IdentifyPapersPublishedInArXiv (paper : List PaperRow) : Except PyError (List (Option String × String)) :=
  match applySeries _convertToArXivDOI (paper.map (fun r => r.url)) with
  | .error e => .error e
  | .ok urls =>
    .ok (((paper.map (fun r => r.title)).zip urls).filter
      (fun p => patSearch arxivPat p.2.data))

/-- Embedding of `oapm_CountPMArXivPapersInOA` (stats.py lines 290-332):
    either return the cached constant, or build the reference values from the
    PeaTMOSS arXiv rows (their derived `url` column, unstandardized) and run
    the chunked matcher over the streamed `SELECT DISTINCT doi FROM works`
    chunks. -/
def oapm_CountPMArXivPapersInOA (paper : List PaperRow) (works_doi : List (Option String)) (returnDefault : Bool) : Except PyError Nat :=
  if returnDefault then .ok OAPM_ARXIV_PM_PAPERS_IN_OA
  else
    match pm_IdentifyPapersPublishedInArXiv paper with
    | .error e => .error e
    | .ok arxivPM =>
      oapm_matchChunks (arxivPM.map (fun p => p.2))
        ((chunkList 10000 works_doi.dedup).map mkChunk)

/-- Specification-side count for claim C5, following the spec's words
    ("doi values containing a space are treated as invalid and excluded"):
    the number of distinct non-null `doi` values containing no space
    character. -/
def spec_CountDOIsWithoutSpace (works_doi : List (Option String)) : Nat :=
  ((works_doi.dedup).filterMap id).countP (fun s => !(s.data.contains ' '))


/-- Applying a column function to the concatenation of two column segments
    behaves like applying it to each segment and concatenating, with the
    first failure winning. -/
theorem applySeries_append (f : String → String) (a b : List (Option String)) :
    applySeries f (a ++ b) =
      match applySeries f a with
      | .error e => .error e
      | .ok x =>
        match applySeries f b with
        | .error e => .error e
        | .ok y => .ok (x ++ y) := by
  induction a with
  | nil =>
    simp only [List.nil_append, applySeries]
    cases applySeries f b <;> simp
  | cons v rest ih =>
    cases v with
    | none => simp [applySeries]
    | some s =>
      simp only [List.cons_append]
      simp only [applySeries]
      rw [ih]
      cases h1 : applySeries f rest with
      | error e => rfl
      | ok x =>
        cases h2 : applySeries f b with
        | error e => rfl
        | ok y => rfl

/-- Processing a one-column `doi` chunk standardizes the column and counts
    the members of the reference values. -/
theorem processChunk_mkChunk (refs : List String) (col : List (Option String)) :
    processChunk refs (mkChunk col) =
      match applySeries _standardizeText col with
      | .error e => .error e
      | .ok std => .ok (std.countP (fun k => refs.contains k)) := rfl

/-- The matcher on a single chunk. -/
theorem matchChunks_single (refs : List String) (col : List (Option String)) :
    oapm_matchChunks refs [mkChunk col] =
      match applySeries _standardizeText col with
      | .error e => .error e
      | .ok std => .ok (std.countP (fun k => refs.contains k)) := by
  rw [oapm_matchChunks, processChunk_mkChunk]
  cases applySeries _standardizeText col with
  | error e => rfl
  | ok std => simp [oapm_matchChunks]

/-- Chunk-boundary invariance: matching a chunked column list equals
    matching its concatenation as a single chunk. -/
theorem matchChunks_join (refs : List String) (cols : List (List (Option String))) :
    oapm_matchChunks refs (cols.map mkChunk) = oapm_matchChunks refs [mkChunk cols.flatten] := by
  induction cols with
  | nil => rfl
  | cons c cs ih =>
    simp only [List.map_cons, List.flatten_cons]
    rw [oapm_matchChunks, ih]
    rw [matchChunks_single, matchChunks_single, processChunk_mkChunk,
        applySeries_append _standardizeText c cs.flatten]
    cases h1 : applySeries _standardizeText c with
    | error e => rfl
    | ok x =>
      cases h2 : applySeries _standardizeText cs.flatten with
      | error e => rfl
      | ok y => simp [List.countP_append, Nat.add_assoc]

/-- Claim C1: the chunked matcher's total match count (per chunk: standardize
    the key column, test membership in the reference values, count matches;
    then sum over chunks) is invariant under chunk boundaries — the same rows
    in the same order as one chunk or split into any number of chunks yield
    the same total; in particular, for reference set `{"a", "b"}` and rows
    with keys `"A"`, `"c"`, `" b "` the count is 2, whether the rows come as
    three chunks or one. -/
theorem oapm_matchChunks_chunk_invariance :
    (∀ (refs : List String) (cols : List (List (Option String))),
      oapm_matchChunks refs (cols.map mkChunk) = oapm_matchChunks refs [mkChunk cols.flatten])
    ∧ oapm_matchChunks ["a", "b"] [mkChunk [some "A"], mkChunk [some "c"], mkChunk [some " b "]] = .ok 2
    ∧ oapm_matchChunks ["a", "b"] [mkChunk [some "A", some "c", some " b "]] = .ok 2 :=
  ⟨matchChunks_join, rfl, rfl⟩

/-- A chunk whose getCol fails makes the whole matcher loop fail: the loop
    never completes with a count. -/
theorem matchChunks_error_of_missing (refs : List String) (chunks : List DataFrame)
    (df : DataFrame) (hmem : df ∈ chunks) (hcol : df.getCol "doi" = .error .schemaError) :
    ∃ e, oapm_matchChunks refs chunks = .error e := by
  induction chunks with
  | nil => cases hmem
  | cons d rest ih =>
    rw [oapm_matchChunks]
    rcases List.mem_cons.mp hmem with h | h
    · have hd : processChunk refs d = .error .schemaError := by
        unfold processChunk
        rw [← h, hcol]
      rw [hd]
      exact ⟨.schemaError, rfl⟩
    · cases hp : processChunk refs d with
      | error e => exact ⟨e, rfl⟩
      | ok c =>
        obtain ⟨e, he⟩ := ih h
        rw [he]
        exact ⟨e, rfl⟩

/-- When the chunks before the malformed one all process cleanly, the loop's
    error is exactly the missing-column error. -/
theorem matchChunks_schemaError (refs : List String) (pre rest : List DataFrame)
    (bad : DataFrame) (hbad : bad.getCol "doi" = .error .schemaError)
    (hpre : ∀ df ∈ pre, ∃ n, processChunk refs df = .ok n) :
    oapm_matchChunks refs (pre ++ bad :: rest) = .error .schemaError := by
  induction pre with
  | nil =>
    simp only [List.nil_append]
    rw [oapm_matchChunks]
    have hb : processChunk refs bad = .error .schemaError := by
      unfold processChunk
      rw [hbad]
    rw [hb]
  | cons d ds ih =>
    obtain ⟨n, hn⟩ := hpre d (by simp)
    simp only [List.cons_append]
    rw [oapm_matchChunks, hn, ih (fun df hdf => hpre df (by simp [hdf]))]

/-- Claim C8: a streamed chunk missing the expected `doi` key column aborts
    the whole match with the missing-column error (pandas `KeyError`, the
    spec's `SchemaError`): when the chunks before it process cleanly the
    operation's result is exactly that error, and whenever such a chunk is
    present anywhere the matcher never returns a count — the malformed chunk
    is not silently skipped. -/
theorem oapm_matchChunks_schemaError_aborts
    (refs : List String) (pre rest chunks : List DataFrame) (bad df : DataFrame)
    (hbad : bad.getCol "doi" = .error .schemaError)
    (hpre : ∀ d ∈ pre, ∃ n, processChunk refs d = .ok n)
    (hmem : df ∈ chunks) (hcol : df.getCol "doi" = .error .schemaError) :
    oapm_matchChunks refs (pre ++ bad :: rest) = .error .schemaError
    ∧ ∀ n, oapm_matchChunks refs chunks ≠ .ok n := by
  refine ⟨matchChunks_schemaError refs pre rest bad hbad hpre, fun n hok => ?_⟩
  obtain ⟨e, he⟩ := matchChunks_error_of_missing refs chunks df hmem hcol
  rw [he] at hok
  cases hok

/-- Witness for C8 at concrete inputs: a well-formed chunk followed by a
    column-less chunk yields the missing-column error, and a sequence holding
    a column-less chunk does not return the count 0. -/
theorem oapm_matchChunks_schemaError_aborts_witness :
    oapm_matchChunks ["a"] [mkChunk [some "a"], DataFrame.mk []] = .error .schemaError
    ∧ oapm_matchChunks ["a"] [DataFrame.mk []] ≠ .ok 0 := by
  have h := oapm_matchChunks_schemaError_aborts ["a"] [mkChunk [some "a"]] []
    [DataFrame.mk []] (DataFrame.mk []) (DataFrame.mk []) rfl
    (by
      intro d hd
      simp only [List.mem_singleton] at hd
      subst hd
      exact ⟨1, rfl⟩)
    (by simp) rfl
  exact ⟨h.1, h.2 0⟩

/-- If the pattern occurs nowhere in the subject, replacement leaves the
    subject unchanged, for any amount of fuel. -/
theorem replaceAllAux_of_not_contains (pat repl : List Char) :
    ∀ (fuel : Nat) (s : List Char), containsSub pat s = false →
      replaceAllAux pat repl fuel s = s := by
  intro fuel
  induction fuel with
  | zero =>
    intro s _
    cases s <;> rfl
  | succ f ih =>
    intro s h
    cases s with
    | nil => rfl
    | cons c rest =>
      rw [containsSub, Bool.or_eq_false_iff] at h
      rw [replaceAllAux, if_neg (by simp [h.1]), ih rest h.2]

/-- Replacing in a subject that starts with the (non-empty) pattern and
    continues with pattern-free text rewrites exactly the leading
    occurrence. -/
theorem replaceAll_concat_of_not_contains (pat repl tail : List Char)
    (hpat : pat ≠ []) (h : containsSub pat tail = false) :
    replaceAll pat repl (pat ++ tail) = repl ++ tail := by
  cases pat with
  | nil => exact absurd rfl hpat
  | cons p ps =>
    show replaceAllAux (p :: ps) repl ((p :: ps) ++ tail).length ((p :: ps) ++ tail) = repl ++ tail
    have hpref : (p :: ps).isPrefixOf (p :: (ps ++ tail)) = true := by
      rw [List.isPrefixOf_iff_prefix, ← List.cons_append]
      exact List.prefix_append _ _
    simp only [List.cons_append, List.length_cons]
    rw [replaceAllAux, if_pos hpref]
    have hdrop : (p :: (ps ++ tail)).drop (p :: ps).length = tail := by
      simp only [List.length_cons, List.drop_succ_cons]
      exact List.drop_left ps tail
    rw [hdrop, replaceAllAux_of_not_contains (p :: ps) repl _ tail h]

/-- A url in which the arXiv abstract-URL text occurs nowhere is returned
    unchanged. -/
theorem convertToArXivDOI_unchanged (url : String)
    (h : containsSub "https://arxiv.org/abs/".data url.data = false) :
    _convertToArXivDOI url = url := by
  unfold _convertToArXivDOI replaceAll
  rw [replaceAllAux_of_not_contains _ _ _ _ h]

/-- A url consisting of the arXiv abstract-URL text followed by a remainder
    that does not again contain that text maps to the arXiv DOI text followed
    by the remainder. -/
theorem convertToArXivDOI_concat (rest : String)
    (h : containsSub "https://arxiv.org/abs/".data rest.data = false) :
    _convertToArXivDOI ("https://arxiv.org/abs/" ++ rest) = "10.48550/arxiv." ++ rest := by
  obtain ⟨rdata⟩ := rest
  show (⟨replaceAll "https://arxiv.org/abs/".data "10.48550/arxiv.".data
      ("https://arxiv.org/abs/".data ++ rdata)⟩ : String) = ⟨"10.48550/arxiv.".data ++ rdata⟩
  rw [replaceAll_concat_of_not_contains _ _ _ (by decide) h]

/-- Claim C2 (amended): `_convertToArXivDOI` is Python `str.replace`, which
    rewrites every occurrence of `"https://arxiv.org/abs/"` in the url with
    `"10.48550/arxiv."`, not only a leading one.  A url containing that text
    nowhere is returned unchanged; a url made of that text followed by an
    occurrence-free remainder maps to `"10.48550/arxiv."` followed by the
    remainder; in particular the two cited examples hold. -/
theorem convertToArXivDOI_semantics :
    (∀ url : String, containsSub "https://arxiv.org/abs/".data url.data = false →
      _convertToArXivDOI url = url)
    ∧ (∀ rest : String, containsSub "https://arxiv.org/abs/".data rest.data = false →
      _convertToArXivDOI ("https://arxiv.org/abs/" ++ rest) = "10.48550/arxiv." ++ rest)
    ∧ _convertToArXivDOI "https://arxiv.org/abs/1234.5678" = "10.48550/arxiv.1234.5678"
    ∧ _convertToArXivDOI "https://example.com/x" = "https://example.com/x" :=
  ⟨convertToArXivDOI_unchanged, convertToArXivDOI_concat, by decide, by decide⟩

/-- Witness for C2 at concrete inputs. -/
theorem convertToArXivDOI_semantics_witness :
    _convertToArXivDOI "https://example.org/a" = "https://example.org/a"
    ∧ _convertToArXivDOI ("https://arxiv.org/abs/" ++ "2401.00001") =
        "10.48550/arxiv." ++ "2401.00001" :=
  ⟨convertToArXivDOI_semantics.1 "https://example.org/a" (by decide),
   convertToArXivDOI_semantics.2.1 "2401.00001" (by decide)⟩

/-- Counterexample for C2 as stated: the input `"xhttps://arxiv.org/abs/1"`
    does not start with `"https://arxiv.org/abs/"`, yet it is not returned
    unchanged — the inner occurrence is rewritten. -/
theorem convertToArXivDOI_rewrites_inner_occurrence :
    "https://arxiv.org/abs/".data.isPrefixOf "xhttps://arxiv.org/abs/1".data = false
    ∧ _convertToArXivDOI "xhttps://arxiv.org/abs/1" ≠ "xhttps://arxiv.org/abs/1"
    ∧ _convertToArXivDOI "xhttps://arxiv.org/abs/1" = "x10.48550/arxiv.1" :=
  ⟨by decide, by decide, by decide⟩

/-- A pattern character matches itself: the wildcard `'.'` is not a newline,
    and every other character matches literally. -/
theorem patCharMatches_self (c : Char) : patCharMatches c c = true := by
  by_cases h : c = '.'
  · subst h
    decide
  · simp [patCharMatches, h]

/-- A literal prefix match is in particular a regex match at the head. -/
theorem patMatchesHere_of_isPrefixOf :
    ∀ (pat s : List Char), pat.isPrefixOf s = true → patMatchesHere pat s = true := by
  intro pat
  induction pat with
  | nil => intro s _; rfl
  | cons p ps ih =>
    intro s h
    cases s with
    | nil => simp [List.isPrefixOf] at h
    | cons c cs =>
      simp only [List.isPrefixOf, Bool.and_eq_true, beq_iff_eq] at h
      obtain ⟨rfl, h2⟩ := h
      rw [patMatchesHere, patCharMatches_self, ih cs h2]
      rfl

/-- A literal substring occurrence is in particular a regex-search match. -/
theorem patSearch_of_containsSub :
    ∀ (s pat : List Char), containsSub pat s = true → patSearch pat s = true := by
  intro s
  induction s with
  | nil =>
    intro pat h
    rw [containsSub] at h
    cases pat with
    | nil => rfl
    | cons p ps => simp [List.isEmpty] at h
  | cons c rest ih =>
    intro pat h
    rw [containsSub, Bool.or_eq_true] at h
    rw [patSearch, Bool.or_eq_true]
    rcases h with h1 | h2
    · exact Or.inl (patMatchesHere_of_isPrefixOf pat (c :: rest) h1)
    · exact Or.inr (ih pat h2)

/-- On a column without nulls, `Series.apply` succeeds and maps the function
    over the cell values. -/
theorem applySeries_of_all_some (f : String → String) :
    ∀ (col : List (Option String)), (∀ v ∈ col, v ≠ none) →
      applySeries f col = .ok (col.map (fun v => f (v.getD ""))) := by
  intro col h
  induction col with
  | nil => rfl
  | cons v rest ih =>
    cases v with
    | none => exact absurd rfl (h none (by simp))
    | some s =>
      rw [applySeries, ih (fun w hw => h w (by simp [hw]))]
      simp

/-- Claim C3 (amended): on papers whose `url` is non-null, the operation
    succeeds and a record is retained exactly when its derived url value
    matches the regular expression `"10.48550/arxiv."` under `re.search`
    semantics (each `'.'` matching any character but a newline), the default
    of `Series.str.contains`; containing the literal substring is sufficient
    for retention, but — per the counterexample — not necessary. -/
theorem pm_IdentifyPapers_regex_classification (paper : List PaperRow)
    (h : ∀ r ∈ paper, r.url ≠ none) :
    pm_IdentifyPapersPublishedInArXiv paper =
      .ok ((paper.map (fun r => (r.title, _convertToArXivDOI (r.url.getD "")))).filter
        (fun p => patSearch arxivPat p.2.data))
    ∧ (∀ p : Option String × String,
        p ∈ (paper.map (fun r => (r.title, _convertToArXivDOI (r.url.getD "")))).filter
              (fun p => patSearch arxivPat p.2.data)
          ↔ p ∈ paper.map (fun r => (r.title, _convertToArXivDOI (r.url.getD "")))
            ∧ patSearch arxivPat p.2.data = true)
    ∧ (∀ s : String, containsSub arxivPat s.data = true →
        patSearch arxivPat s.data = true) := by
  refine ⟨?_, fun p => List.mem_filter, fun s hs => patSearch_of_containsSub s.data arxivPat hs⟩
  unfold pm_IdentifyPapersPublishedInArXiv
  rw [applySeries_of_all_some _ (paper.map (fun r => r.url))
    (by
      intro v hv
      simp only [List.mem_map] at hv
      obtain ⟨r, hr, rfl⟩ := hv
      exact h r hr)]
  show Except.ok (List.filter (fun p => patSearch arxivPat p.2.data)
      ((List.map (fun r => r.title) paper).zip
        (List.map (fun v => _convertToArXivDOI (v.getD ""))
          (List.map (fun r => r.url) paper)))) = _
  rw [List.map_map, List.zip_map']
  rfl

/-- Witness for C3 at a concrete input: a single arXiv-abstract record is
    classified as published in arXiv. -/
theorem pm_IdentifyPapers_regex_classification_witness :
    pm_IdentifyPapersPublishedInArXiv [PaperRow.mk (some "t") (some "https://arxiv.org/abs/9")] =
      .ok [(some "t", "10.48550/arxiv.9")] := by
  have h := pm_IdentifyPapers_regex_classification
    [PaperRow.mk (some "t") (some "https://arxiv.org/abs/9")] (by decide)
  rw [h.1]
  rfl

/-- Counterexample for C3 as stated: the derived value
    `"10x48550/arxivz"` does not contain the literal substring
    `"10.48550/arxiv."`, yet the record is retained, because the value
    matches the pattern as a regular expression (the two `'.'` positions
    match `'x'` and `'z'`). -/
theorem pm_IdentifyPapers_regex_overmatch :
    pm_IdentifyPapersPublishedInArXiv [PaperRow.mk (some "t") (some "10x48550/arxivz")] =
      .ok [(some "t", "10x48550/arxivz")]
    ∧ containsSub arxivPat "10x48550/arxivz".data = false :=
  ⟨rfl, by decide⟩

/-- The maximum of a non-empty id list is attained and bounds every element. -/
theorem listMaxId_spec :
    ∀ ids : List Nat, ids ≠ [] →
      ∃ m, listMaxId ids = some m ∧ m ∈ ids ∧ ∀ x ∈ ids, x ≤ m := by
  intro ids
  induction ids with
  | nil => intro hne; exact absurd rfl hne
  | cons i rest ih =>
    intro _
    rcases eq_or_ne rest [] with hre | hre
    · subst hre
      exact ⟨i, rfl, by simp, by simp⟩
    · obtain ⟨m, hm, hmem, hle⟩ := ih hre
      refine ⟨max i m, by rw [listMaxId, hm], ?_, ?_⟩
      · rcases max_choice i m with hmax | hmax <;> rw [hmax]
        · exact List.mem_cons_self i rest
        · exact List.mem_cons_of_mem i hmem
      · intro x hx
        rcases List.mem_cons.mp hx with rfl | hx
        · exact le_max_left _ _
        · exact le_trans (hle x hx) (le_max_right _ _)

/-- Claim C4 (amended): the computed branch of `oa_CountCitations` returns
    the largest id value of the `cites` table (`ORDER BY id DESC LIMIT 1`),
    not the raw row count: on an empty table it fails with the TypeError
    from subscripting `fetchone()`'s `None`; on a non-empty table it returns
    the maximum id, which coincides with the row count exactly when the ids
    are a gap-free sequence bounded by the row count that attains it. -/
theorem oa_CountCitations_maxId_semantics (ids : List Nat) :
    (ids = [] → oa_CountCitations ids false = .error .typeError)
    ∧ (ids ≠ [] → ∃ m, oa_CountCitations ids false = .ok m ∧ m ∈ ids ∧ ∀ x ∈ ids, x ≤ m)
    ∧ (ids.length ∈ ids → (∀ x ∈ ids, x ≤ ids.length) →
        oa_CountCitations ids false = .ok ids.length) := by
  refine ⟨?_, ?_, ?_⟩
  · intro h
    subst h
    rfl
  · intro hne
    obtain ⟨m, hm, hmem, hle⟩ := listMaxId_spec ids hne
    refine ⟨m, ?_, hmem, hle⟩
    simp [oa_CountCitations, sqlTopIdDesc, hm, _runOneValueSQLQuery, subscript0]
  · intro hmem hle
    have hne : ids ≠ [] := by
      intro h
      subst h
      simp at hmem
    obtain ⟨m, hm, hmm, hml⟩ := listMaxId_spec ids hne
    have heq : m = ids.length := le_antisymm (hle m hmm) (hml _ hmem)
    subst heq
    simp [oa_CountCitations, sqlTopIdDesc, hm, _runOneValueSQLQuery, subscript0]

/-- Witness for C4 at concrete inputs. -/
theorem oa_CountCitations_maxId_semantics_witness :
    oa_CountCitations [] false = .error .typeError
    ∧ oa_CountCitations [2, 1] false = .ok 2 := by
  refine ⟨(oa_CountCitations_maxId_semantics []).1 rfl, ?_⟩
  exact (oa_CountCitations_maxId_semantics [2, 1]).2.2 (by decide) (by decide)

/-- Counterexample for C4 as stated: a cites table with a single edge whose
    id is 5 has one row, but the computed statistic returns 5. -/
theorem oa_CountCitations_not_row_count :
    oa_CountCitations [5] false = .ok 5
    ∧ ([5] : List Nat).length = 1
    ∧ (5 : Nat) ≠ 1 :=
  ⟨rfl, rfl, by decide⟩

/-- Claim C5 evaluated at the failing input: a works table whose single doi
    is `"a b"` (a value containing a space but not equal to the one-space
    string).  The code counts it — `pandas.Series.replace(" ", None)` nulls
    only cells whose whole value equals `" "` — while the function's own
    docstring and the spec exclude every doi containing a space. -/
theorem oa_CountPapersByDOI_space_not_excluded :
    oa_CountPapersByDOI [some "a b"] false = 1
    ∧ spec_CountDOIsWithoutSpace [some "a b"] = 0
    ∧ "a b".data.contains ' ' = true
    ∧ oa_CountPapersByDOI [some " "] false = 0
    ∧ oa_CountPapersByDOI [some "a b"] false ≠ spec_CountDOIsWithoutSpace [some "a b"] :=
  ⟨rfl, rfl, by decide, rfl, by decide⟩

/-- Claim C6 evaluated at the failing input: a chunk holding a null key.
    The matcher does not drop the null row — `Series.apply(_standardizeText)`
    raises the null-attribute error and the whole operation fails; the same
    applies to the title-column standardization of
    `oapm_CountCitationsOfArXivPMPapers`. -/
theorem oapm_null_key_crash :
    oapm_matchChunks ["a"] [mkChunk [some "a", none]] = .error .attributeError
    ∧ applySeries _standardizeText [some "t", none] = .error .attributeError :=
  ⟨rfl, rfl⟩

/-- Claim C7 (amended): on a zero-row result the scalar query helper returns
    `None` from `fetchone()` without raising anything; the counting caller's
    `[0]` subscription then fails with the unrelated
    `TypeError: 'NoneType' object is not subscriptable`, not with a
    structured `QueryError`. -/
theorem scalar_zero_rows_returns_none (rows : List Nat) (h : rows = []) :
    _runOneValueSQLQuery rows = none
    ∧ subscript0 (_runOneValueSQLQuery rows) = (.error .typeError : Except PyError Nat)
    ∧ oa_CountCitations rows false = .error .typeError := by
  subst h
  exact ⟨rfl, rfl, rfl⟩

/-- Witness for C7 at the empty result. -/
theorem scalar_zero_rows_returns_none_witness :
    _runOneValueSQLQuery ([] : List Nat) = none
    ∧ subscript0 (_runOneValueSQLQuery ([] : List Nat)) = (.error .typeError : Except PyError Nat)
    ∧ oa_CountCitations [] false = .error .typeError :=
  scalar_zero_rows_returns_none [] rfl

/-- Counterexample for C7 as stated: the zero-row case of the one-value
    query pipeline fails with the TypeError, which is not the spec's
    QueryError. -/
theorem scalar_zero_rows_not_queryError :
    oa_CountCitations [] false = .error .typeError
    ∧ PyError.typeError ≠ PyError.queryError :=
  ⟨rfl, by decide⟩

/-- Claim C9: both derived proportions return the quotient
    numerator/denominator when the denominator is nonzero, and fail with the
    zero-division error when it is zero. -/
theorem proportion_division_semantics (num den : Nat) :
    (den ≠ 0 →
      oa_ProportionOfValidPapers den num = .ok ((num : Rat) / (den : Rat))
      ∧ oapm_ProportionOfPMPapersInOA den num = .ok ((num : Rat) / (den : Rat)))
    ∧ (den = 0 →
      oa_ProportionOfValidPapers den num = .error .divisionError
      ∧ oapm_ProportionOfPMPapersInOA den num = .error .divisionError) := by
  constructor
  · intro h
    constructor <;>
      simp [oa_ProportionOfValidPapers, oapm_ProportionOfPMPapersInOA, pyDiv, h]
  · intro h
    subst h
    exact ⟨rfl, rfl⟩

/-- Witness for C9 at concrete counts. -/
theorem proportion_division_semantics_witness :
    oa_ProportionOfValidPapers 2 1 = .ok (((1 : Nat) : Rat) / ((2 : Nat) : Rat))
    ∧ oapm_ProportionOfPMPapersInOA 0 1 = .error .divisionError :=
  ⟨((proportion_division_semantics 1 2).1 (by decide)).1,
   ((proportion_division_semantics 1 0).2 rfl).2⟩

/-- Claim C10: with the default `returnDefault = true`, each of the four
    counting operations returns its fixed precomputed constant before
    touching the data, so any two data sources yield identical results. -/
theorem returnDefault_ignores_data_sources
    (w1 w2 o1 o2 : List (Option String)) (c1 c2 : List Nat) (p1 p2 : List PaperRow) :
    oa_CountPapersByDOI w1 true = oa_CountPapersByDOI w2 true
    ∧ oa_CountPapersByOAID o1 true = oa_CountPapersByOAID o2 true
    ∧ oa_CountCitations c1 true = oa_CountCitations c2 true
    ∧ oapm_CountPMArXivPapersInOA p1 w1 true = oapm_CountPMArXivPapersInOA p2 w2 true :=
  ⟨rfl, rfl, rfl, rfl⟩
